import Mathlib

/-!
Verification of the gameCollection REST API routes against its specification.

The repository contains three route files: `src/routes/games.js` and two router
variants concatenated in `src/unnamed/part_000` (referred to below as the first
and second variant).  Each Express handler is embedded as a pure Lean function
from the request and the pre-state (datastore rows, image-directory listing) to
a response and the post-state.  JavaScript-specific behaviour that the routes
rely on (truthiness of strings, `isNaN` / `parseInt` string coercion, the
datastore client skipping `undefined` fields) is modelled explicitly by small
helper functions, each documented with the construct it models.
-/

namespace GameCollection

/-- A value taken from a parsed request body: multipart form fields arrive as
strings, JSON bodies may also carry boolean literals (relevant for the
`completed === true` / `completed === 'true'` comparisons in the routes). -/
inductive JSVal where
  | str : String → JSVal
  | bool : Bool → JSVal
deriving DecidableEq, Repr

/-- A persisted Game row (prisma `model Game`).  `developer`, `publisher`,
`releaseDate` are nullable columns; `filename` is modelled nullable because
every route writes `filename: null` when no file is attached and branches on
`game.filename` being null.  `createdAt` (a system timestamp no claim touches)
is omitted. -/
structure Game where
  id : Int
  title : String
  description : String
  developer : Option String
  publisher : Option String
  releaseDate : Option String
  completed : Bool
  filename : Option String
deriving DecidableEq, Repr

/-- The datastore: the list of Game rows. -/
abbrev DB := List Game

/-- The image directory `public/images`: the list of filenames on disk. -/
abbrev FS := List String

/-- prisma.game.findUnique({ where: { id } }). -/
def findUnique (db : DB) (id : Int) : Option Game :=
  db.find? (fun g => g.id == id)

/-- prisma.game.update({ where: { id }, data }): the row with the given id is
replaced by the merged row. -/
def dbUpdate (db : DB) (id : Int) (g : Game) : DB :=
  db.map (fun h => if h.id == id then g else h)

/-- prisma.game.delete({ where: { id } }). -/
def dbDelete (db : DB) (id : Int) : DB :=
  db.filter (fun g => g.id != id)

/-- JS truthiness of a possibly-absent string field (`undefined` and the empty
string are falsy, every other string is truthy). -/
def jsPresent (x : Option String) : Bool :=
  match x with
  | some s => s != ""
  | none => false

/-- JS `x || y` returning a string: the supplied field when truthy, otherwise
the fallback. -/
def jsOr (x : Option String) (y : String) : String :=
  match x with
  | some s => if s = "" then y else s
  | none => y

/-- JS `x || y` where the fallback is a nullable column value. -/
def jsOrOpt (x : Option String) (y : Option String) : Option String :=
  match x with
  | some s => if s = "" then y else some s
  | none => y

/-- JS `field && !pattern.test(field)`: a present (truthy) field that fails its
format test.  Absent or empty fields never trigger a format error. -/
def checkOpt (x : Option String) (test : String → Bool) : Bool :=
  match x with
  | some s => s != "" && !(test s)
  | none => false

/-- One character of the `[a-zA-Z0-9\s]` character class. -/
def isAlnumSpace (c : Char) : Bool :=
  c.isAlpha || c.isDigit || c.isWhitespace

/-- titlePattern = /^[a-zA-Z0-9\s]{1,100}$/ (length counted in characters; the
inputs considered are ASCII, where this agrees with JS string length). -/
def titleTest (s : String) : Bool :=
  1 ≤ s.length && s.length ≤ 100 && s.toList.all isAlnumSpace

/-- descriptionPattern = /^[\s\S]{1,500}$/ (any characters, length 1 to 500). -/
def descriptionTest (s : String) : Bool :=
  1 ≤ s.length && s.length ≤ 500

/-- developerPattern = /^[a-zA-Z0-9\s]{1,100}$/. -/
def developerTest (s : String) : Bool :=
  1 ≤ s.length && s.length ≤ 100 && s.toList.all isAlnumSpace

/-- publisherPattern = /^[a-zA-Z0-9\s]{1,100}$/. -/
def publisherTest (s : String) : Bool :=
  1 ≤ s.length && s.length ≤ 100 && s.toList.all isAlnumSpace

/-- releaseDatePattern = /^(0[1-9]|1[0-2])-(0[1-9]|[12][0-9]|3[01])-(\d{4})$/,
the mm-dd-yyyy shape check used by every route. -/
def releaseDateTest (s : String) : Bool :=
  match s.toList with
  | [m1, m2, h1, d1, d2, h2, y1, y2, y3, y4] =>
    h1 == '-' && h2 == '-' &&
    ((m1 == '0' && m2.isDigit && m2 != '0') ||
     (m1 == '1' && (m2 == '0' || m2 == '1' || m2 == '2'))) &&
    ((d1 == '0' && d2.isDigit && d2 != '0') ||
     ((d1 == '1' || d1 == '2') && d2.isDigit) ||
     (d1 == '3' && (d2 == '0' || d2 == '1'))) &&
    y1.isDigit && y2.isDigit && y3.isDigit && y4.isDigit
  | _ => false

/-- Recognizer for the body of a JS decimal number literal:
digits, digits '.' digits, digits '.', or '.' digits. -/
def decBody (l : List Char) : Bool :=
  let ds := l.takeWhile Char.isDigit
  match l.drop ds.length with
  | [] => !ds.isEmpty
  | '.' :: frac => (!ds.isEmpty || !frac.isEmpty) && frac.all Char.isDigit
  | _ => false

/-- The whitespace trimming `Number(s)` performs on both ends of a string. -/
def jsTrimList (l : List Char) : List Char :=
  ((l.dropWhile Char.isWhitespace).reverse.dropWhile Char.isWhitespace).reverse

/-- JS `isNaN(s)` for a string s: `Number(s)` is NaN.  Modelled for
optional-sign decimal literals; a whitespace-only string coerces to 0 (not
NaN).  Hex and exponent forms are not modelled (no input considered here uses
them). -/
def jsIsNaN (s : String) : Bool :=
  match jsTrimList s.toList with
  | [] => false
  | '+' :: r => !(decBody r)
  | '-' :: r => !(decBody r)
  | l => !(decBody l)

/-- Numeric value of a digit string. -/
def digitsVal (l : List Char) : Nat :=
  l.foldl (fun a c => 10 * a + (c.toNat - 48)) 0

/-- Longest digit prefix with a sign, or NaN (none) when there are no digits. -/
def jsParseIntCore (l : List Char) (sign : Int) : Option Int :=
  let ds := l.takeWhile Char.isDigit
  if ds.isEmpty then none else some (sign * (digitsVal ds : Int))

/-- JS `parseInt(s)`: skip leading whitespace, optional sign, read the longest
digit prefix (truncating any fractional tail), NaN when no digits follow. -/
def jsParseInt (s : String) : Option Int :=
  match s.toList.dropWhile Char.isWhitespace with
  | '+' :: r => jsParseIntCore r 1
  | '-' :: r => jsParseIntCore r (-1)
  | l => jsParseIntCore l 1

/-- A response: HTTP status code and the message sent (for `res.json({message})`,
`res.json({error})` or `res.send(text)` the carried text; for a bare
`res.json(record)` the empty string). -/
structure HttpResult where
  status : Nat
  body : String
deriving DecidableEq, Repr

/-- The outcome of one request: a response together with the post-state of the
datastore and image directory, or an exception escaping the handler (no
response is produced by the handler itself). -/
inductive HandlerOut where
  | res (r : HttpResult) (db : DB) (fs : FS)
  | crash (db : DB) (fs : FS)
deriving DecidableEq, Repr

/-- A PUT update request: the id path parameter (a raw string), the parsed body
fields (absent fields are none), and the uploaded file's generated filename
when a file was sent. -/
structure UpdateReq where
  id : String
  title : Option String
  description : Option String
  developer : Option String
  publisher : Option String
  releaseDate : Option String
  completed : Option JSVal
  file : Option String
deriving DecidableEq, Repr

/-- A POST create request body plus the uploaded file's generated filename. -/
structure CreateReq where
  title : Option String
  description : Option String
  developer : Option String
  publisher : Option String
  releaseDate : Option String
  completed : Option JSVal
  file : Option String
deriving DecidableEq, Repr

/-- upload.single('image'): the multer middleware runs before every create and
update handler and writes the uploaded file (under its generated name) into
the image directory — even when the handler later rejects the request. -/
def multerStep (file : Option String) (fs : FS) : FS :=
  match file with
  | some f => fs ++ [f]
  | none => fs

/-- The update routes' presence guard
`!title && !description && !developer && !publisher && !releaseDate && !req.file`
(identical in both part_000 variants; the `completed` field is not consulted). -/
def noFields (req : UpdateReq) : Bool :=
  !(jsPresent req.title) && !(jsPresent req.description) && !(jsPresent req.developer) &&
  !(jsPresent req.publisher) && !(jsPresent req.releaseDate) && req.file.isNone

/-- The old-image deletion step of part_000's first update variant: when a new
file was uploaded and the record has a stored filename, unlink the old file
if it exists on disk (a missing file is only logged); an unlink error is
answered with 500 and aborts the update.  `unlinkFails` injects an I/O failure
into the `fsPromises.unlink` call; on failure the file stays on disk. -/
def delOld (unlinkFails : Bool) (file : Option String) (old : Option String) (fs : FS) :
    Option HttpResult × FS :=
  match file, old with
  | some _, some o =>
    if o ∈ fs then
      if unlinkFails then (some ⟨500, "Error deleting old image file."⟩, fs)
      else (none, fs.erase o)
    else (none, fs)
  | _, _ => (none, fs)

/-- The `data` object of prisma.game.update in part_000's first update route:
field-level merge via JS `||` with the stored row, `completed` computed as
`completed === 'true' || existingGame.completed`, filename replaced only when
a file was uploaded. -/
def photoMerge (req : UpdateReq) (g : Game) : Game :=
  { id := g.id
    title := jsOr req.title g.title
    description := jsOr req.description g.description
    developer := jsOrOpt req.developer g.developer
    publisher := jsOrOpt req.publisher g.publisher
    releaseDate := jsOrOpt req.releaseDate g.releaseDate
    completed := if req.completed = some (JSVal.str "true") then true else g.completed
    filename := match req.file with | some f => some f | none => g.filename }

/-- The `data` object of prisma.game.update in games.js's update route: the
same `||` merge, `completed` kept when the body omits it and otherwise set to
`completed === true` (only a boolean literal true counts), filename
`filename || existingGame.filename` where filename is the uploaded name or
null. -/
def gamesMerge (req : UpdateReq) (g : Game) : Game :=
  { id := g.id
    title := jsOr req.title g.title
    description := jsOr req.description g.description
    developer := jsOrOpt req.developer g.developer
    publisher := jsOrOpt req.publisher g.publisher
    releaseDate := jsOrOpt req.releaseDate g.releaseDate
    completed := match req.completed with
      | none => g.completed
      | some (JSVal.bool b) => b
      | some (JSVal.str _) => false
    filename := jsOrOpt req.file g.filename }

/-- The `data` object of prisma.game.update in part_000's second update route:
every field is assigned directly.  An absent body field is the JS value
`undefined`, which the datastore client skips (the column keeps its stored
value); `completed === 'true'` and `filename` (the uploaded name or null) are
always concrete values and are therefore always written. -/
def photoMerge2 (req : UpdateReq) (g : Game) : Game :=
  { id := g.id
    title := match req.title with | some t => t | none => g.title
    description := match req.description with | some d => d | none => g.description
    developer := match req.developer with | some d => some d | none => g.developer
    publisher := match req.publisher with | some p => some p | none => g.publisher
    releaseDate := match req.releaseDate with | some r => some r | none => g.releaseDate
    completed := match req.completed with | some (JSVal.str "true") => true | _ => false
    filename := req.file }

/-- router.put('/photo/update/:id') of part_000, first variant: id guard,
lookup, at-least-one-field guard, per-field format checks on present fields,
old-image deletion when a new file arrived, then the merge update.  The
multer middleware step is included at the top.  A parseInt NaN id that passes
the isNaN guard (whitespace-only string) reaches findUnique, which throws
outside any try block. -/
def photoUpdate (unlinkFails : Bool) (req : UpdateReq) (db : DB) (fs0 : FS) : HandlerOut :=
  let fs := multerStep req.file fs0
  if jsIsNaN req.id then .res ⟨400, "Invalid game id."⟩ db fs
  else
    match jsParseInt req.id with
    | none => .crash db fs
    | some id =>
      match findUnique db id with
      | none => .res ⟨404, "Game not found."⟩ db fs
      | some existingGame =>
        if noFields req then
          .res ⟨400, "At least one field must be provided for update."⟩ db fs
        else if checkOpt req.title titleTest then
          .res ⟨400, "Invalid title format. Use 1-100 alphanumeric characters."⟩ db fs
        else if checkOpt req.description descriptionTest then
          .res ⟨400, "Invalid description format. Use up to 500 characters."⟩ db fs
        else if checkOpt req.developer developerTest then
          .res ⟨400, "Invalid developer format. Use 1-100 alphanumeric characters."⟩ db fs
        else if checkOpt req.publisher publisherTest then
          .res ⟨400, "Invalid publisher format. Use 1-100 alphanumeric characters."⟩ db fs
        else if checkOpt req.releaseDate releaseDateTest then
          .res ⟨400, "Invalid release date format. Use mm-dd-yyyy."⟩ db fs
        else
          match delOld unlinkFails req.file existingGame.filename fs with
          | (some r, fs1) => .res r db fs1
          | (none, fs1) =>
            .res ⟨200, "Game updated successfully!"⟩
              (dbUpdate db id (photoMerge req existingGame)) fs1

/-- router.put('/photo/update/:id') of part_000, second variant: same id and
lookup guards and the same at-least-one-field guard, but of the format checks
only releaseDate (when provided).  Its old-image deletion block guards on
`req.file && existingGame.filename` and then calls `fs.existsSync` — but this
module never imports `fs` (only `fsPromises`), so entering the block throws an
uncaught ReferenceError outside any try/catch, before any unlink or datastore
write: the handler crashes with no response, so the `unlinkFails` fault
parameter (kept for a signature parallel to the first variant) is irrelevant —
the unlink call is never reached.  When the block is skipped (no upload, or no
stored filename) the overwrite-style update runs. -/
def photoUpdate2 (_unlinkFails : Bool) (req : UpdateReq) (db : DB) (fs0 : FS) : HandlerOut :=
  let fs := multerStep req.file fs0
  if jsIsNaN req.id then .res ⟨400, "Invalid game id."⟩ db fs
  else
    match jsParseInt req.id with
    | none => .crash db fs
    | some id =>
      match findUnique db id with
      | none => .res ⟨404, "Game not found."⟩ db fs
      | some existingGame =>
        if noFields req then
          .res ⟨400, "All fields are required."⟩ db fs
        else if checkOpt req.releaseDate releaseDateTest then
          .res ⟨400, "Invalid release date format. Use mm-dd-yyyy."⟩ db fs
        else
          match req.file, existingGame.filename with
          | some _, some _ => .crash db fs
          | _, _ =>
            .res ⟨200, "Game updated successfully!"⟩
              (dbUpdate db id (photoMerge2 req existingGame)) fs

/-- router.put('/update/:id') of games.js: id and lookup guards, a releaseDate
format check when provided (no other validation, no no-fields guard, no
old-image deletion), then the merge update answered with `res.json(record)`. -/
def gamesUpdate (req : UpdateReq) (db : DB) (fs0 : FS) : HandlerOut :=
  let fs := multerStep req.file fs0
  if jsIsNaN req.id then .res ⟨400, "Invalid game id."⟩ db fs
  else
    match jsParseInt req.id with
    | none => .crash db fs
    | some id =>
      match findUnique db id with
      | none => .res ⟨404, "Game not found."⟩ db fs
      | some existingGame =>
        if checkOpt req.releaseDate releaseDateTest then
          .res ⟨400, "Invalid release date format. Use mm-dd-yyyy."⟩ db fs
        else
          .res ⟨200, ""⟩ (dbUpdate db id (gamesMerge req existingGame)) fs

/-- The required-fields guard of part_000's create route:
`!title || !description || !developer || !publisher || !releaseDate` negated. -/
def allRequired (req : CreateReq) : Bool :=
  jsPresent req.title && jsPresent req.description && jsPresent req.developer &&
  jsPresent req.publisher && jsPresent req.releaseDate

/-- The row created by prisma.game.create in part_000's '/create' route
(`newId` models the autoincrement id; the route only reaches the create after
all five scalars were checked present). -/
def createRecord (newId : Int) (req : CreateReq) : Game :=
  { id := newId
    title := req.title.getD ""
    description := req.description.getD ""
    developer := req.developer
    publisher := req.publisher
    releaseDate := req.releaseDate
    completed := req.completed = some (JSVal.str "true")
    filename := req.file }

/-- router.post('/create') of part_000, first variant: required-fields guard,
then the five format checks in source order, then the insert. -/
def createGame (newId : Int) (req : CreateReq) (db : DB) (fs0 : FS) : HandlerOut :=
  let fs := multerStep req.file fs0
  if !(allRequired req) then
    .res ⟨400, "All fields are required."⟩ db fs
  else if !(titleTest (req.title.getD "")) then
    .res ⟨400, "Invalid title format. Use 1-100 alphanumeric characters."⟩ db fs
  else if !(descriptionTest (req.description.getD "")) then
    .res ⟨400, "Invalid description format. Use up to 500 characters."⟩ db fs
  else if !(developerTest (req.developer.getD "")) then
    .res ⟨400, "Invalid developer format. Use 1-100 alphanumeric characters."⟩ db fs
  else if !(publisherTest (req.publisher.getD "")) then
    .res ⟨400, "Invalid publisher format. Use 1-100 alphanumeric characters."⟩ db fs
  else if !(releaseDateTest (req.releaseDate.getD "")) then
    .res ⟨400, "Invalid release date: must be in the format mm-dd-yyyy."⟩ db fs
  else
    .res ⟨200, "Game added successfully!"⟩ (db ++ [createRecord newId req]) fs

/-- The row created by prisma.game.create in games.js's '/add' route, for a
request whose title and description are present (strings t and d);
`completed === true` is true only for a boolean literal. -/
def addRecord (newId : Int) (t d : String) (req : CreateReq) : Game :=
  { id := newId
    title := t
    description := d
    developer := req.developer
    publisher := req.publisher
    releaseDate := req.releaseDate
    completed := match req.completed with | some (JSVal.bool b) => b | _ => false
    filename := req.file }

/-- router.post('/add') of games.js: the only validation is the releaseDate
regex (an absent releaseDate is coerced by JS to the string "undefined",
which fails the pattern); an absent title or description then makes the
datastore client throw on a required column, which escapes the handler.  On
success the body string models the handler's confirmation text; the client
actually receives the bare record from `res.json(game)` with the same 200,
because the follow-up `res.status(200).send(text)` throws after the headers
were already sent. -/
def addGame (newId : Int) (req : CreateReq) (db : DB) (fs0 : FS) : HandlerOut :=
  let fs := multerStep req.file fs0
  if !(releaseDateTest (match req.releaseDate with | some s => s | none => "undefined")) then
    .res ⟨400, "Invalid release date: must be in the format mm-dd-yyyy."⟩ db fs
  else
    match req.title, req.description with
    | some t, some d =>
      .res ⟨200, "Game added successfully!"⟩ (db ++ [addRecord newId t d req]) fs
    | _, _ => .crash db fs

/-- router.get('/photo/all') of part_000: always 200 with the full (possibly
empty) array of rows. -/
def photoAll (db : DB) : Nat × Option (List Game) :=
  (200, some db)

/-- router.get('/all') of games.js: 400 with an error text (and no array) when
the collection is empty, otherwise the array of rows. -/
def gamesAll (db : DB) : Nat × Option (List Game) :=
  if db.length = 0 then (400, none) else (200, some db)

/-- router.get('/get/:id') of games.js: isNaN guard, then lookup inside a try
block (a parseInt NaN reaching findUnique throws and is caught as a 500). -/
def gamesGet (rid : String) (db : DB) : HttpResult :=
  if jsIsNaN rid then ⟨400, "Invalid game id."⟩
  else
    match jsParseInt rid with
    | none => ⟨500, "Error fetching the game."⟩
    | some id =>
      match findUnique db id with
      | some game => ⟨200, "Successfully found game with id " ++ rid ++ " - " ++ game.title⟩
      | none => ⟨404, "Game not found."⟩

/-- router.delete('/delete/:id') of games.js and of part_000's first variant —
identical control flow in those two files, so embedded once: isNaN guard,
then inside a try block: lookup, row deletion, then image-file removal when
the row has a filename and the file exists; any error thrown inside the try
(including an unlink failure, injected by `unlinkFails`) is answered with 500
— after the row was already deleted.  (part_000's second-variant delete is
not embedded here: its unimported `fs` identifier makes every delete of a
row with a non-null filename throw inside the try and answer 500.) -/
def deleteGame (unlinkFails : Bool) (rid : String) (db : DB) (fs : FS) : HandlerOut :=
  if jsIsNaN rid then .res ⟨400, "Invalid game id."⟩ db fs
  else
    match jsParseInt rid with
    | none => .res ⟨500, "Error deleting the game."⟩ db fs
    | some id =>
      match findUnique db id with
      | none => .res ⟨404, "Game not found."⟩ db fs
      | some game =>
        match game.filename with
        | some f =>
          if f ∈ fs then
            if unlinkFails then .res ⟨500, "Error deleting the game."⟩ (dbDelete db id) fs
            else
              .res ⟨200, "Successfully deleted game with id " ++ rid ++ " - " ++ game.title⟩
                (dbDelete db id) (fs.erase f)
          else
            .res ⟨200, "Successfully deleted game with id " ++ rid ++ " - " ++ game.title⟩
              (dbDelete db id) fs
        | none =>
          .res ⟨200, "Successfully deleted game with id " ++ rid ++ " - " ++ game.title⟩
            (dbDelete db id) fs

/-- A field that triggers a format error is in particular present (truthy). -/
theorem checkOpt_present (x : Option String) (t : String → Bool)
    (h : checkOpt x t = true) : jsPresent x = true := by
  cases x with
  | none => simp [checkOpt] at h
  | some s =>
    simp only [checkOpt, Bool.and_eq_true] at h
    simp [jsPresent, h.1]

/-- After dbDelete, the deleted id has no row. -/
theorem findUnique_dbDelete (db : DB) (id : Int) :
    findUnique (dbDelete db id) id = none := by
  rw [findUnique, List.find?_eq_none]
  intro g hg
  rw [dbDelete, List.mem_filter] at hg
  simpa using hg.2

/-- Success path of part_000's first update route with no uploaded file: when
the id parses, the row exists, at least one field is present and every present
field passes its format check, the handler answers 200 and stores the
photoMerge row. -/
theorem photoUpdate_ok (u : Bool) (req : UpdateReq) (db : DB) (fs : FS) (id : Int) (g : Game)
    (hnan : jsIsNaN req.id = false) (hpi : jsParseInt req.id = some id)
    (hfind : findUnique db id = some g) (hnf : noFields req = false)
    (ht : checkOpt req.title titleTest = false)
    (hd : checkOpt req.description descriptionTest = false)
    (hdev : checkOpt req.developer developerTest = false)
    (hp : checkOpt req.publisher publisherTest = false)
    (hr : checkOpt req.releaseDate releaseDateTest = false)
    (hfile : req.file = none) :
    photoUpdate u req db fs =
      .res ⟨200, "Game updated successfully!"⟩ (dbUpdate db id (photoMerge req g)) fs := by
  simp [photoUpdate, multerStep, delOld, hnan, hpi, hfind, hnf, ht, hd, hdev, hp, hr, hfile]

/-- Success path of part_000's second update route with no uploaded file. -/
theorem photoUpdate2_ok (u : Bool) (req : UpdateReq) (db : DB) (fs : FS) (id : Int) (g : Game)
    (hnan : jsIsNaN req.id = false) (hpi : jsParseInt req.id = some id)
    (hfind : findUnique db id = some g) (hnf : noFields req = false)
    (hr : checkOpt req.releaseDate releaseDateTest = false)
    (hfile : req.file = none) :
    photoUpdate2 u req db fs =
      .res ⟨200, "Game updated successfully!"⟩ (dbUpdate db id (photoMerge2 req g)) fs := by
  simp [photoUpdate2, multerStep, delOld, hnan, hpi, hfind, hnf, hr, hfile]

/-- Success path of games.js's update route with no uploaded file. -/
theorem gamesUpdate_ok (req : UpdateReq) (db : DB) (fs : FS) (id : Int) (g : Game)
    (hnan : jsIsNaN req.id = false) (hpi : jsParseInt req.id = some id)
    (hfind : findUnique db id = some g)
    (hr : checkOpt req.releaseDate releaseDateTest = false)
    (hfile : req.file = none) :
    gamesUpdate req db fs = .res ⟨200, ""⟩ (dbUpdate db id (gamesMerge req g)) fs := by
  simp [gamesUpdate, multerStep, hnan, hpi, hfind, hr, hfile]

/-- C1 counterexample: in part_000's second update variant, an update of an
existing record that supplies only `description` and no file succeeds with
200 but resets the stored filename from "old.png" to null — the field absent
from the request (the filename) does not equal its pre-update value, refuting
the merge law as stated for every update route. -/
theorem c1_counterexample :
    photoUpdate2 false ⟨"1", none, some "new", none, none, none, none, none⟩
        [⟨1, "Halo", "d", some "Bungie", some "MS", some "01-01-2001", false, some "old.png"⟩]
        ["old.png"] =
      .res ⟨200, "Game updated successfully!"⟩
        [⟨1, "Halo", "new", some "Bungie", some "MS", some "01-01-2001", false, none⟩]
        ["old.png"]
    ∧ (⟨1, "Halo", "new", some "Bungie", some "MS", some "01-01-2001", false, none⟩ :
        Game).filename ≠
      (⟨1, "Halo", "d", some "Bungie", some "MS", some "01-01-2001", false, some "old.png"⟩ :
        Game).filename := by
  exact ⟨by decide, by decide⟩

/-- C1 (amended): for a no-file update on an existing record whose validation
passes, the merge law holds in games.js's update route and part_000's first
variant for all five scalar fields and the filename; in part_000's second
variant it holds for the five scalar fields (the datastore skips absent
fields) but the filename is reset to null rather than retained.  Supplied
(valid, non-empty) fields replace the stored value in all three routes. -/
theorem c1_amended (u : Bool) (req : UpdateReq) (db : DB) (fs : FS) (id : Int) (g : Game)
    (hnan : jsIsNaN req.id = false) (hpi : jsParseInt req.id = some id)
    (hfind : findUnique db id = some g) (hnf : noFields req = false)
    (ht : checkOpt req.title titleTest = false)
    (hd : checkOpt req.description descriptionTest = false)
    (hdev : checkOpt req.developer developerTest = false)
    (hp : checkOpt req.publisher publisherTest = false)
    (hr : checkOpt req.releaseDate releaseDateTest = false)
    (hfile : req.file = none) :
    (photoUpdate u req db fs =
        .res ⟨200, "Game updated successfully!"⟩ (dbUpdate db id (photoMerge req g)) fs
      ∧ gamesUpdate req db fs = .res ⟨200, ""⟩ (dbUpdate db id (gamesMerge req g)) fs
      ∧ photoUpdate2 u req db fs =
        .res ⟨200, "Game updated successfully!"⟩ (dbUpdate db id (photoMerge2 req g)) fs)
    ∧ (req.title = none → (photoMerge req g).title = g.title
        ∧ (gamesMerge req g).title = g.title ∧ (photoMerge2 req g).title = g.title)
    ∧ (req.description = none → (photoMerge req g).description = g.description
        ∧ (gamesMerge req g).description = g.description
        ∧ (photoMerge2 req g).description = g.description)
    ∧ (req.developer = none → (photoMerge req g).developer = g.developer
        ∧ (gamesMerge req g).developer = g.developer
        ∧ (photoMerge2 req g).developer = g.developer)
    ∧ (req.publisher = none → (photoMerge req g).publisher = g.publisher
        ∧ (gamesMerge req g).publisher = g.publisher
        ∧ (photoMerge2 req g).publisher = g.publisher)
    ∧ (req.releaseDate = none → (photoMerge req g).releaseDate = g.releaseDate
        ∧ (gamesMerge req g).releaseDate = g.releaseDate
        ∧ (photoMerge2 req g).releaseDate = g.releaseDate)
    ∧ (∀ t, req.title = some t → t ≠ "" → (photoMerge req g).title = t
        ∧ (gamesMerge req g).title = t ∧ (photoMerge2 req g).title = t)
    ∧ ((photoMerge req g).filename = g.filename
        ∧ (gamesMerge req g).filename = g.filename
        ∧ (photoMerge2 req g).filename = none) := by
  refine ⟨⟨photoUpdate_ok u req db fs id g hnan hpi hfind hnf ht hd hdev hp hr hfile,
          gamesUpdate_ok req db fs id g hnan hpi hfind hr hfile,
          photoUpdate2_ok u req db fs id g hnan hpi hfind hnf hr hfile⟩,
         ?_, ?_, ?_, ?_, ?_, ?_, ?_⟩
  · intro h; simp [photoMerge, gamesMerge, photoMerge2, jsOr, h]
  · intro h; simp [photoMerge, gamesMerge, photoMerge2, jsOr, h]
  · intro h; simp [photoMerge, gamesMerge, photoMerge2, jsOrOpt, h]
  · intro h; simp [photoMerge, gamesMerge, photoMerge2, jsOrOpt, h]
  · intro h; simp [photoMerge, gamesMerge, photoMerge2, jsOrOpt, h]
  · intro t h hne; simp [photoMerge, gamesMerge, photoMerge2, jsOr, h, hne]
  · simp [photoMerge, gamesMerge, photoMerge2, jsOrOpt, hfile]

/-- C1 amended witness: a concrete no-file update supplying only the title,
run through part_000's first update route via c1_amended. -/
theorem c1_amended_witness :
    photoUpdate false ⟨"1", some "Halo2", none, none, none, none, none, none⟩
        [⟨1, "Halo", "d", none, none, none, false, some "old.png"⟩] [] =
      .res ⟨200, "Game updated successfully!"⟩
        [⟨1, "Halo2", "d", none, none, none, false, some "old.png"⟩] [] := by
  have h := (c1_amended false ⟨"1", some "Halo2", none, none, none, none, none, none⟩
      [⟨1, "Halo", "d", none, none, none, false, some "old.png"⟩] [] 1
      ⟨1, "Halo", "d", none, none, none, false, some "old.png"⟩
      (by decide) (by decide) (by decide) (by decide) (by decide) (by decide)
      (by decide) (by decide) (by decide) rfl).1.1
  exact h.trans (by decide)

/-- C2 counterexample: in part_000's first update variant, an update supplying
`completed = "false"` on a record whose stored completed is true answers 200
with completed still true, although the parsed boolean of the supplied value
is false — the post-update completed does not equal the parsed supplied
value. -/
theorem c2_counterexample :
    photoUpdate false ⟨"1", some "Halo2", none, none, none, none,
        some (JSVal.str "false"), none⟩
      [⟨1, "Halo", "d", none, none, none, true, none⟩] [] =
    .res ⟨200, "Game updated successfully!"⟩
      [⟨1, "Halo2", "d", none, none, none, true, none⟩] [] := by
  decide

/-- C2 (amended): for a validated no-file update of an existing record, the
post-update completed is, per route: part_000 first variant — true exactly
when the supplied value is the string "true" or the stored value was already
true (a supplied flag can never clear a stored true, and is ignored when it
is not the string "true"); games.js — the stored value when the flag is
omitted, otherwise `value === true` (only a boolean literal true counts, the
string "true" yields false); part_000 second variant — `value === 'true'`
regardless, so omitting the flag resets completed to false. -/
theorem c2_amended (u : Bool) (req : UpdateReq) (db : DB) (fs : FS) (id : Int) (g : Game)
    (hnan : jsIsNaN req.id = false) (hpi : jsParseInt req.id = some id)
    (hfind : findUnique db id = some g) (hnf : noFields req = false)
    (ht : checkOpt req.title titleTest = false)
    (hd : checkOpt req.description descriptionTest = false)
    (hdev : checkOpt req.developer developerTest = false)
    (hp : checkOpt req.publisher publisherTest = false)
    (hr : checkOpt req.releaseDate releaseDateTest = false)
    (hfile : req.file = none) :
    (photoUpdate u req db fs =
        .res ⟨200, "Game updated successfully!"⟩ (dbUpdate db id (photoMerge req g)) fs
      ∧ gamesUpdate req db fs = .res ⟨200, ""⟩ (dbUpdate db id (gamesMerge req g)) fs
      ∧ photoUpdate2 u req db fs =
        .res ⟨200, "Game updated successfully!"⟩ (dbUpdate db id (photoMerge2 req g)) fs)
    ∧ ((photoMerge req g).completed = true ↔
        (req.completed = some (JSVal.str "true") ∨ g.completed = true))
    ∧ (req.completed = none →
        (gamesMerge req g).completed = g.completed ∧ (photoMerge2 req g).completed = false)
    ∧ (∀ b, req.completed = some (JSVal.bool b) →
        (gamesMerge req g).completed = b ∧ (photoMerge req g).completed = g.completed)
    ∧ (req.completed = some (JSVal.str "true") →
        (photoMerge req g).completed = true ∧ (gamesMerge req g).completed = false
        ∧ (photoMerge2 req g).completed = true)
    ∧ (∀ s, s ≠ "true" → req.completed = some (JSVal.str s) →
        (photoMerge req g).completed = g.completed ∧ (gamesMerge req g).completed = false
        ∧ (photoMerge2 req g).completed = false) := by
  refine ⟨⟨photoUpdate_ok u req db fs id g hnan hpi hfind hnf ht hd hdev hp hr hfile,
          gamesUpdate_ok req db fs id g hnan hpi hfind hr hfile,
          photoUpdate2_ok u req db fs id g hnan hpi hfind hnf hr hfile⟩,
         ?_, ?_, ?_, ?_, ?_⟩
  · by_cases hc : req.completed = some (JSVal.str "true") <;> simp [photoMerge, hc]
  · intro h; simp [gamesMerge, photoMerge2, h]
  · intro b h; simp [gamesMerge, photoMerge, h]
  · intro h; simp [photoMerge, gamesMerge, photoMerge2, h]
  · intro s hs h; simp [photoMerge, gamesMerge, photoMerge2, h, hs]

/-- C2 amended witness: omitting the flag in games.js's update keeps the
stored completed value, via c2_amended. -/
theorem c2_amended_witness :
    (gamesMerge ⟨"1", some "Halo2", none, none, none, none, none, none⟩
        ⟨1, "Halo", "d", none, none, none, true, none⟩).completed = true
    ∧ gamesUpdate ⟨"1", some "Halo2", none, none, none, none, none, none⟩
        [⟨1, "Halo", "d", none, none, none, true, none⟩] [] =
      .res ⟨200, ""⟩ [⟨1, "Halo2", "d", none, none, none, true, none⟩] [] := by
  have h := c2_amended false ⟨"1", some "Halo2", none, none, none, none, none, none⟩
      [⟨1, "Halo", "d", none, none, none, true, none⟩] [] 1
      ⟨1, "Halo", "d", none, none, none, true, none⟩
      (by decide) (by decide) (by decide) (by decide) (by decide) (by decide)
      (by decide) (by decide) (by decide) rfl
  exact ⟨((h.2.2.1 rfl).1).trans (by decide), (h.1.2.1).trans (by decide)⟩

/-- C3 counterexample: in part_000's second update variant, an update of an
existing record with a new uploaded file and a stored old filename never
reaches the unlink at all: the unimported `fs` identifier throws an uncaught
ReferenceError outside any try/catch, so the handler crashes with no response
— in particular it does not produce the 500 server error the claim states for
this route (even with the unlink fault injected). -/
theorem c3_counterexample :
    photoUpdate2 true ⟨"1", some "Halo2", none, none, none, none, none, some "new.png"⟩
        [⟨1, "Halo", "d", none, none, none, false, some "old.png"⟩] ["old.png"] =
      .crash [⟨1, "Halo", "d", none, none, none, false, some "old.png"⟩]
        ["old.png", "new.png"]
    ∧ HandlerOut.crash [⟨1, "Halo", "d", none, none, none, false, some "old.png"⟩]
        (["old.png", "new.png"] : FS) ≠
      .res ⟨500, "Error deleting old image file."⟩
        [⟨1, "Halo", "d", none, none, none, false, some "old.png"⟩]
        ["old.png", "new.png"] := by
  exact ⟨by decide, by decide⟩

/-- C3 (amended): when a new image file was uploaded and the record has a
stored old filename that exists on disk, part_000's first update variant
aborts a failing unlink with 500 and an unchanged datastore (the row keeps
its old filename, which still names a file on disk; the only filesystem
change is the file multer had already written); part_000's second variant
instead crashes with an uncaught ReferenceError before any unlink or
datastore write — no response is produced, but the datastore is likewise
left unchanged. -/
theorem c3_amended (u : Bool) (req : UpdateReq) (db : DB) (fs : FS) (id : Int)
    (g : Game) (f old : String)
    (hnan : jsIsNaN req.id = false) (hpi : jsParseInt req.id = some id)
    (hfind : findUnique db id = some g)
    (hfile : req.file = some f) (hold : g.filename = some old) (hin : old ∈ fs)
    (ht : checkOpt req.title titleTest = false)
    (hd : checkOpt req.description descriptionTest = false)
    (hdev : checkOpt req.developer developerTest = false)
    (hp : checkOpt req.publisher publisherTest = false)
    (hr : checkOpt req.releaseDate releaseDateTest = false) :
    photoUpdate true req db fs =
      .res ⟨500, "Error deleting old image file."⟩ db (fs ++ [f])
    ∧ photoUpdate2 u req db fs = .crash db (fs ++ [f])
    ∧ old ∈ fs ++ [f] := by
  have hnf : noFields req = false := by simp [noFields, hfile]
  have hmem : old ∈ fs ++ [f] := List.mem_append_left _ hin
  refine ⟨?_, ?_, hmem⟩
  · simp [photoUpdate, multerStep, delOld, hnan, hpi, hfind, hnf, ht, hd, hdev, hp, hr,
      hfile, hold, hmem]
  · simp [photoUpdate2, multerStep, hnan, hpi, hfind, hnf, hr, hfile, hold]

/-- C3 amended witness: a concrete update with a new upload whose old-image
unlink fails in part_000's first variant, via c3_amended. -/
theorem c3_amended_witness :
    photoUpdate true ⟨"1", some "Halo2", none, none, none, none, none, some "new.png"⟩
        [⟨1, "Halo", "d", none, none, none, false, some "old.png"⟩] ["old.png"] =
      .res ⟨500, "Error deleting old image file."⟩
        [⟨1, "Halo", "d", none, none, none, false, some "old.png"⟩] ["old.png", "new.png"] := by
  have h := c3_amended true
      ⟨"1", some "Halo2", none, none, none, none, none, some "new.png"⟩
      [⟨1, "Halo", "d", none, none, none, false, some "old.png"⟩] ["old.png"] 1
      ⟨1, "Halo", "d", none, none, none, false, some "old.png"⟩ "new.png" "old.png"
      (by decide) (by decide) (by decide) rfl rfl (by decide)
      (by decide) (by decide) (by decide) (by decide) (by decide)
  exact h.1.trans (by decide)

/-- C4 counterexample: an update on an existing id supplying the malformed
releaseDate "13-01-2020" together with an uploaded file is rejected with 400
and the record is unchanged, but a filesystem side effect did occur before
the rejection: multer wrote the uploaded file to the image directory, which
is no longer empty. -/
theorem c4_counterexample :
    photoUpdate false ⟨"1", none, none, none, none, some "13-01-2020", none,
        some "171-2.png"⟩
      [⟨1, "Halo", "d", none, none, none, false, none⟩] [] =
    .res ⟨400, "Invalid release date format. Use mm-dd-yyyy."⟩
      [⟨1, "Halo", "d", none, none, none, false, none⟩] ["171-2.png"]
    ∧ multerStep (some "171-2.png") [] ≠ ([] : FS) := by
  exact ⟨by decide, by decide⟩

/-- C4 (amended): an update on an existing id whose supplied releaseDate fails
the format check (earlier checks passing) is rejected with 400; the datastore
is unchanged and no file is deleted, but the image directory already contains
the uploaded file when one was sent (multer runs before validation); only a
file-less malformed request leaves the filesystem untouched. -/
theorem c4_amended (u : Bool) (req : UpdateReq) (db : DB) (fs : FS) (id : Int) (g : Game)
    (hnan : jsIsNaN req.id = false) (hpi : jsParseInt req.id = some id)
    (hfind : findUnique db id = some g)
    (ht : checkOpt req.title titleTest = false)
    (hd : checkOpt req.description descriptionTest = false)
    (hdev : checkOpt req.developer developerTest = false)
    (hp : checkOpt req.publisher publisherTest = false)
    (hbad : checkOpt req.releaseDate releaseDateTest = true) :
    photoUpdate u req db fs =
      .res ⟨400, "Invalid release date format. Use mm-dd-yyyy."⟩ db (multerStep req.file fs)
    ∧ (req.file = none → multerStep req.file fs = fs) := by
  have hpr : jsPresent req.releaseDate = true := checkOpt_present _ _ hbad
  have hnf : noFields req = false := by simp [noFields, hpr]
  constructor
  · simp [photoUpdate, hnan, hpi, hfind, hnf, ht, hd, hdev, hp, hbad]
  · intro h; simp [multerStep, h]

/-- C4 amended witness: the malformed-releaseDate update of the spec scenario,
without a file, leaves both the datastore and the filesystem unchanged, via
c4_amended. -/
theorem c4_amended_witness :
    photoUpdate false ⟨"1", none, none, none, none, some "13-01-2020", none, none⟩
        [⟨1, "Halo", "d", none, none, none, false, none⟩] [] =
      .res ⟨400, "Invalid release date format. Use mm-dd-yyyy."⟩
        [⟨1, "Halo", "d", none, none, none, false, none⟩] [] := by
  have h := c4_amended false ⟨"1", none, none, none, none, some "13-01-2020", none, none⟩
      [⟨1, "Halo", "d", none, none, none, false, none⟩] [] 1
      ⟨1, "Halo", "d", none, none, none, false, none⟩
      (by decide) (by decide) (by decide) (by decide) (by decide) (by decide)
      (by decide) (by decide)
  exact h.1.trans (by decide)

/-- C5 counterexample: games.js's create route ('/add') accepts a request with
an empty required title (and no developer or publisher at all): with a valid
releaseDate it answers 200 and persists the record, instead of failing on the
missing/empty required field as the claim states for every create request. -/
theorem c5_counterexample :
    addGame 1 ⟨some "", some "d", none, none, some "01-01-2020", none, none⟩ [] [] =
      .res ⟨200, "Game added successfully!"⟩
        [⟨1, "", "d", none, none, some "01-01-2020", false, none⟩] [] := by
  decide

/-- C5 (amended): part_000's create route validates in exactly the claimed
order — missing-any-required, then title, description, developer, publisher,
releaseDate formats, with a pass persisting the record; games.js's '/add'
route instead checks only the releaseDate format (rejecting an invalid or
absent date with 400) and otherwise persists whatever title and description
strings were sent, without any further validation. -/
theorem c5_amended (nid : Int) (req : CreateReq) (db : DB) (fs : FS) :
    (allRequired req = false →
      createGame nid req db fs =
        .res ⟨400, "All fields are required."⟩ db (multerStep req.file fs))
    ∧ (allRequired req = true → titleTest (req.title.getD "") = false →
      createGame nid req db fs =
        .res ⟨400, "Invalid title format. Use 1-100 alphanumeric characters."⟩ db
          (multerStep req.file fs))
    ∧ (allRequired req = true → titleTest (req.title.getD "") = true →
       descriptionTest (req.description.getD "") = false →
      createGame nid req db fs =
        .res ⟨400, "Invalid description format. Use up to 500 characters."⟩ db
          (multerStep req.file fs))
    ∧ (allRequired req = true → titleTest (req.title.getD "") = true →
       descriptionTest (req.description.getD "") = true →
       developerTest (req.developer.getD "") = false →
      createGame nid req db fs =
        .res ⟨400, "Invalid developer format. Use 1-100 alphanumeric characters."⟩ db
          (multerStep req.file fs))
    ∧ (allRequired req = true → titleTest (req.title.getD "") = true →
       descriptionTest (req.description.getD "") = true →
       developerTest (req.developer.getD "") = true →
       publisherTest (req.publisher.getD "") = false →
      createGame nid req db fs =
        .res ⟨400, "Invalid publisher format. Use 1-100 alphanumeric characters."⟩ db
          (multerStep req.file fs))
    ∧ (allRequired req = true → titleTest (req.title.getD "") = true →
       descriptionTest (req.description.getD "") = true →
       developerTest (req.developer.getD "") = true →
       publisherTest (req.publisher.getD "") = true →
       releaseDateTest (req.releaseDate.getD "") = false →
      createGame nid req db fs =
        .res ⟨400, "Invalid release date: must be in the format mm-dd-yyyy."⟩ db
          (multerStep req.file fs))
    ∧ (allRequired req = true → titleTest (req.title.getD "") = true →
       descriptionTest (req.description.getD "") = true →
       developerTest (req.developer.getD "") = true →
       publisherTest (req.publisher.getD "") = true →
       releaseDateTest (req.releaseDate.getD "") = true →
      createGame nid req db fs =
        .res ⟨200, "Game added successfully!"⟩ (db ++ [createRecord nid req])
          (multerStep req.file fs))
    ∧ (∀ s t d, req.releaseDate = some s → releaseDateTest s = true →
       req.title = some t → req.description = some d →
      addGame nid req db fs =
        .res ⟨200, "Game added successfully!"⟩ (db ++ [addRecord nid t d req])
          (multerStep req.file fs))
    ∧ (releaseDateTest (match req.releaseDate with | some s => s | none => "undefined") =
        false →
      addGame nid req db fs =
        .res ⟨400, "Invalid release date: must be in the format mm-dd-yyyy."⟩ db
          (multerStep req.file fs)) := by
  refine ⟨?_, ?_, ?_, ?_, ?_, ?_, ?_, ?_, ?_⟩
  · intro h; simp [createGame, h]
  · intro h1 h2; simp [createGame, h1, h2]
  · intro h1 h2 h3; simp [createGame, h1, h2, h3]
  · intro h1 h2 h3 h4; simp [createGame, h1, h2, h3, h4]
  · intro h1 h2 h3 h4 h5; simp [createGame, h1, h2, h3, h4, h5]
  · intro h1 h2 h3 h4 h5 h6; simp [createGame, h1, h2, h3, h4, h5, h6]
  · intro h1 h2 h3 h4 h5 h6; simp [createGame, h1, h2, h3, h4, h5, h6]
  · intro s t d hs hrd ht hd; simp [addGame, hs, hrd, ht, hd]
  · intro h; simp [addGame, h]

/-- C5 amended witness: a create request with a missing title is rejected by
part_000's create route with the missing-fields error, via c5_amended. -/
theorem c5_amended_witness :
    createGame 1 ⟨none, some "d", some "v", some "w", some "01-01-2020", none, none⟩ [] [] =
      .res ⟨400, "All fields are required."⟩ [] [] := by
  have h := (c5_amended 1
      ⟨none, some "d", some "v", some "w", some "01-01-2020", none, none⟩ [] []).1 (by decide)
  exact h.trans (by decide)

/-- C6 counterexample: games.js's list route ('/all') on an empty collection
answers 400 with an error text and no array, not the claimed 200 with an
empty array. -/
theorem c6_counterexample :
    gamesAll ([] : DB) = (400, none)
    ∧ gamesAll ([] : DB) ≠ (200, some ([] : List Game)) := by
  exact ⟨by decide, by decide⟩

/-- C6 (amended): part_000's list route ('/photo/all') always answers 200 with
the (possibly empty) array of all records; games.js's '/all' does so only for
a nonempty collection and answers 400 with no array when it is empty. -/
theorem c6_amended (db : DB) :
    photoAll db = (200, some db)
    ∧ (db = [] → gamesAll db = (400, none))
    ∧ (db ≠ [] → gamesAll db = (200, some db)) := by
  refine ⟨rfl, ?_, ?_⟩
  · intro h; simp [gamesAll, h]
  · intro h; simp [gamesAll, List.length_eq_zero, h]

/-- C6 amended witness: a one-record collection is listed with 200 by both
routes, via c6_amended. -/
theorem c6_amended_witness :
    gamesAll [⟨1, "Halo", "d", none, none, none, false, none⟩] =
      (200, some [⟨1, "Halo", "d", none, none, none, false, none⟩]) := by
  exact (c6_amended [⟨1, "Halo", "d", none, none, none, false, none⟩]).2.2 (by decide)

/-- C7: deleting an existing record (fault-free filesystem): when the stored
filename is non-null, exactly that file is erased from the image directory —
and if it is already absent the listing is unchanged and no error occurs
(List.erase covers both) — while a null filename performs no filesystem
deletion; in every case the row is removed and the response is the 200
confirmation message. -/
theorem c7_delete_file_handling (rid : String) (db : DB) (fs : FS) (id : Int) (g : Game)
    (hnan : jsIsNaN rid = false) (hpi : jsParseInt rid = some id)
    (hfind : findUnique db id = some g) :
    (∀ f, g.filename = some f →
      deleteGame false rid db fs =
        .res ⟨200, "Successfully deleted game with id " ++ rid ++ " - " ++ g.title⟩
          (dbDelete db id) (fs.erase f))
    ∧ (g.filename = none →
      deleteGame false rid db fs =
        .res ⟨200, "Successfully deleted game with id " ++ rid ++ " - " ++ g.title⟩
          (dbDelete db id) fs) := by
  constructor
  · intro f hf
    by_cases hm : f ∈ fs
    · simp [deleteGame, hnan, hpi, hfind, hf, hm]
    · simp [deleteGame, hnan, hpi, hfind, hf, hm, List.erase_of_not_mem hm]
  · intro hf
    simp [deleteGame, hnan, hpi, hfind, hf]

/-- C7 witness: deleting a record whose image is on disk removes exactly that
file and the row, via c7_delete_file_handling. -/
theorem c7_delete_file_handling_witness :
    deleteGame false "1" [⟨1, "Halo", "d", none, none, none, false, some "a.png"⟩]
        ["a.png", "b.png"] =
      .res ⟨200, "Successfully deleted game with id 1 - Halo"⟩ [] ["b.png"] := by
  have h := (c7_delete_file_handling "1"
      [⟨1, "Halo", "d", none, none, none, false, some "a.png"⟩] ["a.png", "b.png"] 1
      ⟨1, "Halo", "d", none, none, none, false, some "a.png"⟩
      (by decide) (by decide) (by decide)).1 "a.png" rfl
  exact h.trans (by decide)

/-- C8: in both part_000 update variants, a request on an existing record with
none of the five scalar fields present and no uploaded file is rejected with
the 400 no-fields error regardless of the completed flag (the presence guard
never consults completed), and when at least one field is present the request
succeeds as soon as every present field passes its format check — absent
fields are never format-checked. -/
theorem c8_no_fields_validation (u : Bool) (req : UpdateReq) (db : DB) (fs : FS)
    (id : Int) (g : Game)
    (hnan : jsIsNaN req.id = false) (hpi : jsParseInt req.id = some id)
    (hfind : findUnique db id = some g) :
    (noFields req = true →
      photoUpdate u req db fs =
        .res ⟨400, "At least one field must be provided for update."⟩ db fs
      ∧ photoUpdate2 u req db fs = .res ⟨400, "All fields are required."⟩ db fs)
    ∧ (∀ c, noFields { req with completed := c } = noFields req)
    ∧ (req.file = none → noFields req = false →
       checkOpt req.title titleTest = false →
       checkOpt req.description descriptionTest = false →
       checkOpt req.developer developerTest = false →
       checkOpt req.publisher publisherTest = false →
       checkOpt req.releaseDate releaseDateTest = false →
      photoUpdate u req db fs =
        .res ⟨200, "Game updated successfully!"⟩ (dbUpdate db id (photoMerge req g)) fs
      ∧ photoUpdate2 u req db fs =
        .res ⟨200, "Game updated successfully!"⟩ (dbUpdate db id (photoMerge2 req g)) fs) := by
  refine ⟨?_, ?_, ?_⟩
  · intro hnf
    have hf : req.file = none := by
      have h2 := hnf
      simp only [noFields, Bool.and_eq_true] at h2
      exact Option.isNone_iff_eq_none.mp h2.2
    constructor
    · simp [photoUpdate, multerStep, hf, hnan, hpi, hfind, hnf]
    · simp [photoUpdate2, multerStep, hf, hnan, hpi, hfind, hnf]
  · intro c; simp [noFields]
  · intro hf hnf ht hd hdev hp hr
    exact ⟨photoUpdate_ok u req db fs id g hnan hpi hfind hnf ht hd hdev hp hr hf,
           photoUpdate2_ok u req db fs id g hnan hpi hfind hnf hr hf⟩

/-- C8 witness: a payload supplying only completed = "true" is rejected by
both part_000 update variants, via c8_no_fields_validation. -/
theorem c8_no_fields_validation_witness :
    photoUpdate false ⟨"1", none, none, none, none, none, some (JSVal.str "true"), none⟩
        [⟨1, "Halo", "d", none, none, none, false, none⟩] [] =
      .res ⟨400, "At least one field must be provided for update."⟩
        [⟨1, "Halo", "d", none, none, none, false, none⟩] [] := by
  have h := (c8_no_fields_validation false
      ⟨"1", none, none, none, none, none, some (JSVal.str "true"), none⟩
      [⟨1, "Halo", "d", none, none, none, false, none⟩] [] 1
      ⟨1, "Halo", "d", none, none, none, false, none⟩
      (by decide) (by decide) (by decide)).1 (by decide)
  exact h.1

/-- C9 counterexample: the id "12.5" is not a valid integer, yet it passes the
`isNaN` guard (Number("12.5") is a number) and is truncated by parseInt to
12, so games.js's get route performs the lookup and answers 200 with the
record of id 12 — not the claimed 400 before any lookup. -/
theorem c9_counterexample :
    jsIsNaN "12.5" = false ∧ jsParseInt "12.5" = some 12
    ∧ gamesGet "12.5" [⟨12, "Halo", "d", none, none, none, false, none⟩] =
      ⟨200, "Successfully found game with id 12.5 - Halo"⟩ := by
  exact ⟨by decide, by decide, by decide⟩

/-- C9 (amended): an id whose `Number` coercion is NaN is answered 400 before
any lookup (the result does not depend on the datastore), and a parsed id
with no matching row is answered 404 after the lookup; but the guard is
`isNaN`, not an integer check, so a numeric non-integer string such as
"12.5" passes it and is truncated by parseInt, the lookup proceeding on the
truncated integer. -/
theorem c9_amended (u : Bool) (rid : String) (req : UpdateReq) (db : DB) (fs : FS) :
    (jsIsNaN rid = true →
      gamesGet rid db = ⟨400, "Invalid game id."⟩
      ∧ deleteGame u rid db fs = .res ⟨400, "Invalid game id."⟩ db fs)
    ∧ (jsIsNaN req.id = true →
      photoUpdate u req db fs = .res ⟨400, "Invalid game id."⟩ db (multerStep req.file fs))
    ∧ (∀ id, jsIsNaN rid = false → jsParseInt rid = some id → findUnique db id = none →
      gamesGet rid db = ⟨404, "Game not found."⟩
      ∧ deleteGame u rid db fs = .res ⟨404, "Game not found."⟩ db fs)
    ∧ (∀ id, jsIsNaN req.id = false → jsParseInt req.id = some id →
       findUnique db id = none →
      photoUpdate u req db fs = .res ⟨404, "Game not found."⟩ db (multerStep req.file fs))
    ∧ (jsIsNaN "12.5" = false ∧ jsParseInt "12.5" = some 12) := by
  refine ⟨?_, ?_, ?_, ?_, by decide, by decide⟩
  · intro h; exact ⟨by simp [gamesGet, h], by simp [deleteGame, h]⟩
  · intro h; simp [photoUpdate, h]
  · intro id h1 h2 h3; exact ⟨by simp [gamesGet, h1, h2, h3], by simp [deleteGame, h1, h2, h3]⟩
  · intro id h1 h2 h3; simp [photoUpdate, h1, h2, h3]

/-- C9 amended witness: the non-numeric id "abc" is rejected with 400 by the
get route independently of the datastore, via c9_amended. -/
theorem c9_amended_witness :
    gamesGet "abc" [⟨1, "Halo", "d", none, none, none, false, none⟩] =
      ⟨400, "Invalid game id."⟩ := by
  have h := (c9_amended false "abc" ⟨"abc", none, none, none, none, none, none, none⟩
      [⟨1, "Halo", "d", none, none, none, false, none⟩] []).1 (by decide)
  exact h.1

/-- C10: delete is not atomic across datastore and filesystem: when the row
exists, has a filename whose file is on disk, and the unlink throws, the
handler answers 500 "Error deleting the game." even though the row has
already been deleted from the datastore (the id no longer resolves). -/
theorem c10_delete_not_atomic (rid : String) (db : DB) (fs : FS) (id : Int) (g : Game)
    (f : String)
    (hnan : jsIsNaN rid = false) (hpi : jsParseInt rid = some id)
    (hfind : findUnique db id = some g) (hf : g.filename = some f) (hin : f ∈ fs) :
    deleteGame true rid db fs =
      .res ⟨500, "Error deleting the game."⟩ (dbDelete db id) fs
    ∧ findUnique (dbDelete db id) id = none := by
  refine ⟨?_, findUnique_dbDelete db id⟩
  simp [deleteGame, hnan, hpi, hfind, hf, hin]

/-- C10 witness: a concrete failing-unlink delete answers 500 with the record
already gone, via c10_delete_not_atomic. -/
theorem c10_delete_not_atomic_witness :
    deleteGame true "1" [⟨1, "Halo", "d", none, none, none, false, some "a.png"⟩]
        ["a.png"] =
      .res ⟨500, "Error deleting the game."⟩ [] ["a.png"] := by
  have h := (c10_delete_not_atomic "1"
      [⟨1, "Halo", "d", none, none, none, false, some "a.png"⟩] ["a.png"] 1
      ⟨1, "Halo", "d", none, none, none, false, some "a.png"⟩ "a.png"
      (by decide) (by decide) (by decide) rfl (by decide)).1
  exact h.trans (by decide)

end GameCollection
